import Mathlib

/-!
Shallow embedding of the Vulkan bootstrap code in src/main.rs.

The embedding models the pure decision logic of the bootstrap sequence:
capability negotiation, instance creation, physical-device selection,
queue-family location and logical-device creation.  Opaque native handles
are replaced by the data that determines the behaviour of the code under
scrutiny: a physical device is the record of properties the code inspects,
the debug-messenger handle is a number (0 is the default null handle), and
the native calls the code issues are recorded as an explicit trace.
Compile-time flags (debug_assertions, target_os) and host facts (available
layers, loader version, native-call success) are parameters, so theorems
quantify over every build and host configuration.
-/

namespace Vulcan

/-- Device type enumeration of the underlying API (vk::PhysicalDeviceType). -/
inductive PhysicalDeviceType where
  | other
  | integratedGpu
  | discreteGpu
  | virtualGpu
  | cpu
deriving DecidableEq

/-- Queue capability bit for graphics work (vk::QueueFlags::GRAPHICS). -/
def QueueFlags.GRAPHICS : Nat := 1

/-- Bitflag containment test, as QueueFlags::contains: all bits of other are set in flags. -/
def queueFlagsContains (flags other : Nat) : Bool := flags &&& other == other

/-- Properties of one queue family: its capability bitmask (queue_flags). -/
structure QueueFamilyProperties where
  queue_flags : Nat
deriving DecidableEq

/-- Feature words reported by a physical device; geometry_shader is a Bool32 word. -/
structure PhysicalDeviceFeatures where
  geometry_shader : Nat
deriving DecidableEq

/-- The Bool32 truth value vk::TRUE. -/
def vkTRUE : Nat := 1

/-- One enumerable physical device, carrying the data the code reads from it
through get_physical_device_properties, get_physical_device_features and
get_physical_device_queue_family_properties. -/
structure PhysicalDevice where
  device_type : PhysicalDeviceType
  features : PhysicalDeviceFeatures
  queue_families : List QueueFamilyProperties
  device_name : String
deriving DecidableEq

/-- The null physical-device handle, vk::PhysicalDevice::default(): it reports
no queue families and no features. -/
instance : Inhabited PhysicalDevice :=
  ⟨{ device_type := .other, features := ⟨0⟩, queue_families := [], device_name := "" }⟩

/-- AppData of the source: the progressively filled aggregate.  messenger is a
raw handle (0 = null), graphics_queue is none until get_device_queue stores
some (family, index). -/
structure AppData where
  messenger : Nat
  physical_device : PhysicalDevice
  graphics_queue : Option (Nat × Nat)
deriving DecidableEq

/-- AppData::default(): null messenger handle, null device, null queue. -/
instance : Inhabited AppData :=
  ⟨{ messenger := 0, physical_device := default, graphics_queue := none }⟩

/-- Error values the bootstrap produces: SuitabilityError (the thiserror type of
the source) and the anyhow string errors. -/
inductive VkError where
  | suitability (msg : String)
  | anyhow (msg : String)
deriving DecidableEq

/-- Iterator::position of the Rust standard library: index of the first element
satisfying the predicate. -/
def position (p : α → Bool) : List α → Option Nat
  | [] => none
  | a :: l => if p a then some 0 else (position p l).map (· + 1)

/-- QueueFamilyIndices of the source: the located graphics family index. -/
structure QueueFamilyIndices where
  graphics : Nat
deriving DecidableEq

/-- QueueFamilyIndices::get: position of the first queue family whose flags
contain GRAPHICS, else the SuitabilityError of the source. -/
def QueueFamilyIndices.get (p_device : PhysicalDevice) : Except VkError QueueFamilyIndices :=
  match position (fun p => queueFlagsContains p.queue_flags QueueFlags.GRAPHICS)
      p_device.queue_families with
  | some i => .ok ⟨i⟩
  | none => .error (.suitability "Missing required queue families.")

/-- check_physical_device: device type, then geometry shader, then queue
families, with an early return at the first failure. -/
def check_physical_device (p_device : PhysicalDevice) : Except VkError Unit :=
  if p_device.device_type ≠ PhysicalDeviceType.discreteGpu ∧
      p_device.device_type ≠ PhysicalDeviceType.integratedGpu then
    .error (.suitability "Only discrete and integrated GPUs are supported.")
  else if p_device.features.geometry_shader ≠ vkTRUE then
    .error (.suitability "Missing geometry shader support.")
  else
    match QueueFamilyIndices.get p_device with
    | .error e => .error e
    | .ok _ => .ok ()

/-- Loop body of pick_physical_device: walk the enumerated devices in order,
skip a device whose check fails, store the first passing device in AppData and
return success; error after the last device. -/
def pickLoop : List PhysicalDevice → AppData → AppData × Except VkError Unit
  | [], a => (a, .error (.anyhow "Failed to find suitable physical device."))
  | device :: rest, a =>
    match check_physical_device device with
    | .error _ => pickLoop rest a
    | .ok _ => ({ a with physical_device := device }, .ok ())

/-- pick_physical_device: the question-mark on enumerate_physical_devices
propagates an enumeration error untouched, then the selection loop runs.  The
returned AppData is the state of the mutable argument when the function
returns. -/
def pick_physical_device (enumeration : Except VkError (List PhysicalDevice))
    (a : AppData) : AppData × Except VkError Unit :=
  match enumeration with
  | .error e => (a, .error e)
  | .ok devices => pickLoop devices a

/-- Loader version triple, vulkanalia::Version without the variant bits. -/
structure Version where
  major : Nat
  minor : Nat
  patch : Nat
deriving DecidableEq

/-- Lexicographic greater-or-equal on versions, the Ord used by the source in
its comparison against PORTABILITY_MACOS_VERSION. -/
def Version.geq (a b : Version) : Bool :=
  decide (b.major < a.major ∨ (b.major = a.major ∧
    (b.minor < a.minor ∨ (b.minor = a.minor ∧ b.patch ≤ a.patch))))

/-- PORTABILITY_MACOS_VERSION of the source: Version::new(1, 3, 216). -/
def PORTABILITY_MACOS_VERSION : Version := ⟨1, 3, 216⟩

/-- VALIDATION_LAYER of the source. -/
def VALIDATION_LAYER : String := "VK_LAYER_KHRONOS_validation"

/-- Name of vk::EXT_DEBUG_UTILS_EXTENSION. -/
def EXT_DEBUG_UTILS_EXTENSION : String := "VK_EXT_debug_utils"

/-- Name of vk::KHR_GET_PHYSICAL_DEVICE_PROPERTIES2_EXTENSION. -/
def KHR_GET_PHYSICAL_DEVICE_PROPERTIES2_EXTENSION : String :=
  "VK_KHR_get_physical_device_properties2"

/-- Name of vk::KHR_PORTABILITY_ENUMERATION_EXTENSION. -/
def KHR_PORTABILITY_ENUMERATION_EXTENSION : String := "VK_KHR_portability_enumeration"

/-- Name of vk::KHR_PORTABILITY_SUBSET_EXTENSION. -/
def KHR_PORTABILITY_SUBSET_EXTENSION : String := "VK_KHR_portability_subset"

/-- The vk::InstanceCreateInfo the code assembles: enabled layer and extension
name lists, the portability flag, and whether a DebugUtilsMessengerCreateInfoEXT
was chained into the request through push_next. -/
structure InstanceCreateRequest where
  enabled_layer_names : List String
  enabled_extension_names : List String
  portability_flag : Bool
  debug_messenger_chained : Bool
deriving DecidableEq

/-- One queue-creation entry of vk::DeviceCreateInfo; the builder derives the
queue count from the length of queue_priorities. -/
structure DeviceQueueCreateInfo where
  queue_family_index : Nat
  queue_priorities : List Rat
deriving DecidableEq

/-- The vk::DeviceCreateInfo the code assembles. -/
structure DeviceCreateRequest where
  queue_create_infos : List DeviceQueueCreateInfo
  enabled_layer_names : List String
  enabled_extension_names : List String
  enabled_features : PhysicalDeviceFeatures
deriving DecidableEq

/-- Native calls the bootstrap issues, recorded as a trace. -/
inductive ApiCall where
  | enumerateInstanceLayerProperties
  | createInstanceCall (req : InstanceCreateRequest)
  | createDebugUtilsMessenger
  | enumeratePhysicalDevices
  | createDeviceCall (req : DeviceCreateRequest)
  | getDeviceQueue (family idx : Nat)
  | destroyDebugUtilsMessenger (handle : Nat)
  | destroyDevice
  | destroyInstance
deriving DecidableEq

/-- Result of create_instance: the AppData argument as left on return, the
native calls issued, and the returned value (the request stands in for the
opaque instance handle on success). -/
structure InstanceResult where
  dataAfter : AppData
  calls : List ApiCall
  result : Except VkError InstanceCreateRequest

/-- create_instance of the source.  validation_enabled is the compile-time
VALIDATION_ENABLED, target_macos the compile-time target_os test, native_ok
whether the native create_instance call succeeds, available_layers the host
layer names enumerated through enumerate_instance_layer_properties, and
window_extensions the names from vk_window::get_required_instance_extensions.
The early return fires before the creation call when validation is requested
but the layer is absent; otherwise layers and extensions are assembled exactly
as in the source and the request is issued. -/
def create_instance (validation_enabled target_macos native_ok : Bool)
    (entry_version : Version) (available_layers window_extensions : List String)
    (a : AppData) : InstanceResult :=
  if validation_enabled && !(available_layers.contains VALIDATION_LAYER) then
    { dataAfter := a, calls := [.enumerateInstanceLayerProperties],
      result := .error (.anyhow "Validation layer requested but not supported!") }
  else
    let layers := if validation_enabled then [VALIDATION_LAYER] else []
    let extensions0 := window_extensions
    let extensions1 :=
      if validation_enabled then extensions0 ++ [EXT_DEBUG_UTILS_EXTENSION] else extensions0
    let macos := target_macos && Version.geq entry_version PORTABILITY_MACOS_VERSION
    let extensions2 :=
      if macos then
        extensions1 ++ [KHR_GET_PHYSICAL_DEVICE_PROPERTIES2_EXTENSION,
          KHR_PORTABILITY_ENUMERATION_EXTENSION]
      else extensions1
    let req : InstanceCreateRequest :=
      { enabled_layer_names := layers, enabled_extension_names := extensions2,
        portability_flag := macos, debug_messenger_chained := validation_enabled }
    { dataAfter := a,
      calls := [.enumerateInstanceLayerProperties, .createInstanceCall req],
      result := if native_ok then .ok req else .error (.anyhow "Instance creation failed.") }

/-- Result of create_logical_decice: the AppData as left on return, the native
calls issued, and the returned value (the request stands in for the opaque
device handle on success). -/
structure DeviceResult where
  dataAfter : AppData
  calls : List ApiCall
  result : Except VkError DeviceCreateRequest

/-- create_logical_decice of the source: locate the graphics queue family of
the physical device stored in AppData, build one queue-creation entry with
priority list [1.0], negotiate device layers and extensions, leave the feature
set at the builder default, create the device and store the queue handle for
(family, 0) in AppData.  On the error paths AppData is left untouched. -/
def create_logical_decice (validation_enabled target_macos native_ok : Bool)
    (entry_version : Version) (a : AppData) : DeviceResult :=
  match QueueFamilyIndices.get a.physical_device with
  | .error e => { dataAfter := a, calls := [], result := .error e }
  | .ok indices =>
    let queue_priorities : List Rat := [1]
    let queue_info : DeviceQueueCreateInfo :=
      { queue_family_index := indices.graphics, queue_priorities := queue_priorities }
    let layers := if validation_enabled then [VALIDATION_LAYER] else []
    let extensions :=
      if target_macos && Version.geq entry_version PORTABILITY_MACOS_VERSION then
        [KHR_PORTABILITY_SUBSET_EXTENSION]
      else []
    let features : PhysicalDeviceFeatures := ⟨0⟩
    let info : DeviceCreateRequest :=
      { queue_create_infos := [queue_info], enabled_layer_names := layers,
        enabled_extension_names := extensions, enabled_features := features }
    if native_ok then
      { dataAfter := { a with graphics_queue := some (indices.graphics, 0) },
        calls := [.createDeviceCall info, .getDeviceQueue indices.graphics 0],
        result := .ok info }
    else
      { dataAfter := a, calls := [.createDeviceCall info],
        result := .error (.anyhow "Device creation failed.") }

/-- The build and host configuration a run of the bootstrap sees. -/
structure World where
  validation_enabled : Bool
  target_macos : Bool
  entry_version : Version
  available_layers : List String
  window_extensions : List String
  physical_devices : List PhysicalDevice
  native_instance_ok : Bool
  native_device_ok : Bool

/-- Result of VulkanApp::create: the native calls issued and the final AppData
on success. -/
structure CreateResult where
  calls : List ApiCall
  result : Except VkError AppData

/-- VulkanApp::create of the source: AppData::default(), then create_instance,
then create_logical_decice, each question-mark propagating the error. -/
def VulkanApp.create (w : World) : CreateResult :=
  let data0 : AppData := default
  let ir := create_instance w.validation_enabled w.target_macos w.native_instance_ok
    w.entry_version w.available_layers w.window_extensions data0
  match ir.result with
  | .error e => { calls := ir.calls, result := .error e }
  | .ok _ =>
    let dr := create_logical_decice w.validation_enabled w.target_macos
      w.native_device_ok w.entry_version ir.dataAfter
    match dr.result with
    | .error e => { calls := ir.calls ++ dr.calls, result := .error e }
    | .ok _ => { calls := ir.calls ++ dr.calls, result := .ok dr.dataAfter }

/-- VulkanApp::destroy of the source: the messenger destroy call is issued
first and only when VALIDATION_ENABLED, then the device destroy call, then the
instance destroy call. -/
def VulkanApp.destroy (validation_enabled : Bool) (a : AppData) : List ApiCall :=
  (if validation_enabled then [ApiCall.destroyDebugUtilsMessenger a.messenger] else []) ++
  [ApiCall.destroyDevice, ApiCall.destroyInstance]

-- Concrete inputs used by the witness theorems below.

def witInstReq : InstanceCreateRequest :=
  { enabled_layer_names := [], enabled_extension_names := ["VK_KHR_surface"], portability_flag := false, debug_messenger_chained := false }

def witGpu : PhysicalDevice :=
  { device_type := .discreteGpu, features := ⟨1⟩, queue_families := [⟨1⟩], device_name := "gpu" }

def witDeviceData : AppData :=
  { messenger := 0, physical_device := witGpu, graphics_queue := none }

def witDeviceReq : DeviceCreateRequest :=
  { queue_create_infos := [{ queue_family_index := 0, queue_priorities := [1] }], enabled_layer_names := [], enabled_extension_names := [], enabled_features := ⟨0⟩ }

theorem position_eq_none_iff (p : α → Bool) (l : List α) :
    position p l = none ↔ ∀ a ∈ l, p a = false := by
  induction l with
  | nil => simp [position]
  | cons a t ih =>
    cases hpa : p a with
    | true => simp [position, hpa]
    | false => simp [position, hpa, Option.map_eq_none', ih]

theorem position_eq_some_iff (p : α → Bool) (l : List α) (i : Nat) :
    position p l = some i ↔
      (∃ a, l.get? i = some a ∧ p a = true) ∧
      ∀ j, j < i → ∀ b, l.get? j = some b → p b = false := by
  induction l generalizing i with
  | nil => simp [position]
  | cons a t ih =>
    cases hpa : p a with
    | true =>
      cases i with
      | zero => simp [position, hpa]
      | succ n =>
        simp only [position, hpa, if_pos]
        constructor
        · intro h; simp at h
        · rintro ⟨-, h2⟩
          have := h2 0 (Nat.succ_pos n) a (by simp)
          rw [hpa] at this; cases this
    | false =>
      cases i with
      | zero =>
        simp only [position, hpa]
        rw [show (if (false = true) then some 0 else (position p t).map (· + 1)) = (position p t).map (· + 1) by simp]
        constructor
        · intro h
          exfalso
          cases hpt : position p t with
          | none => rw [hpt] at h; simp at h
          | some k => rw [hpt] at h; simp at h
        · rintro ⟨⟨b, hb, hpb⟩, -⟩
          rw [List.get?_cons_zero] at hb
          cases hb
          rw [hpa] at hpb; cases hpb
      | succ n =>
        have hmap : ((position p t).map (· + 1) = some (n + 1)) ↔ position p t = some n := by
          cases hpt : position p t <;> simp
        simp only [position, hpa]
        rw [show (if (false = true) then some 0 else (position p t).map (· + 1)) = (position p t).map (· + 1) by simp]
        rw [hmap, ih n]
        constructor
        · rintro ⟨⟨b, hb, hpb⟩, h2⟩
          refine ⟨⟨b, by simpa using hb, hpb⟩, ?_⟩
          intro j hj b' hb'
          cases j with
          | zero =>
            have hb'' : a = b' := by simpa using hb'
            exact hb'' ▸ hpa
          | succ k =>
            exact h2 k (by omega) b' (by simpa using hb')
        · rintro ⟨⟨b, hb, hpb⟩, h2⟩
          refine ⟨⟨b, by simpa using hb, hpb⟩, ?_⟩
          intro j hj b' hb'
          exact h2 (j + 1) (by omega) b' (by simpa using hb')

/-- C3: QueueFamilyIndices::get returns the lowest index in the queue-family
property list of the device whose capability flags include graphics support,
and returns the missing-queue-families SuitabilityError exactly when no family
in the list has the graphics flag. -/
theorem queue_family_locator_lowest_graphics (p_device : PhysicalDevice) (i : Nat) :
    (QueueFamilyIndices.get p_device = .ok ⟨i⟩ ↔
      (∃ p, p_device.queue_families.get? i = some p ∧
        queueFlagsContains p.queue_flags QueueFlags.GRAPHICS = true) ∧
      ∀ j, j < i → ∀ q, p_device.queue_families.get? j = some q →
        queueFlagsContains q.queue_flags QueueFlags.GRAPHICS = false) ∧
    (QueueFamilyIndices.get p_device = .error (.suitability "Missing required queue families.") ↔
      ∀ p ∈ p_device.queue_families,
        queueFlagsContains p.queue_flags QueueFlags.GRAPHICS = false) := by
  unfold QueueFamilyIndices.get
  cases hpos : position (fun p => queueFlagsContains p.queue_flags QueueFlags.GRAPHICS)
      p_device.queue_families with
  | none =>
    rw [position_eq_none_iff] at hpos
    constructor
    · constructor
      · intro h; cases h
      · rintro ⟨⟨b, hb, hpb⟩, -⟩
        rw [hpos b (List.get?_mem hb)] at hpb
        cases hpb
    · simpa using hpos
  | some k =>
    rw [position_eq_some_iff] at hpos
    constructor
    · constructor
      · intro h
        cases h
        exact hpos
      · rintro ⟨⟨b, hb, hpb⟩, h2⟩
        have hk : k = i := by
          rcases hpos with ⟨⟨c, hc, hpc⟩, hk2⟩
          rcases Nat.lt_trichotomy k i with hlt | heq | hgt
          · rw [h2 k hlt c hc] at hpc; cases hpc
          · exact heq
          · rw [hk2 i hgt b hb] at hpb; cases hpb
        rw [hk]
    · constructor
      · intro h; cases h
      · intro hall
        exfalso
        rcases hpos with ⟨⟨c, hc, hpc⟩, -⟩
        rw [hall c (List.get?_mem hc)] at hpc
        cases hpc

/-- C2: pick_physical_device stores into AppData and returns success for the
first enumerated device that check_physical_device passes, and returns the
no-suitable-device error when the enumeration is empty or no candidate
passes. -/
theorem physical_device_selector_first_pass (devices : List PhysicalDevice) (a : AppData) :
    pick_physical_device (.ok devices) a =
      match devices.find? (fun d => (check_physical_device d).isOk) with
      | some d => ({ a with physical_device := d }, .ok ())
      | none => (a, .error (.anyhow "Failed to find suitable physical device.")) := by
  show pickLoop devices a = _
  induction devices with
  | nil => rfl
  | cons d rest ih =>
    cases hc : check_physical_device d with
    | error e =>
      simp only [pickLoop, hc, List.find?, Except.isOk, Except.toBool]
      exact ih
    | ok u =>
      cases u
      simp only [pickLoop, hc, List.find?, Except.isOk, Except.toBool]

/-- C4: check_physical_device passes exactly when the device type is discrete
or integrated, the geometry-shader feature word is vk::TRUE and the queue
family locator succeeds; the checks run in that order and the first failing
one decides the returned error. -/
theorem suitability_evaluator_ordered_checks (p_device : PhysicalDevice) :
    (check_physical_device p_device = .ok () ↔
      (p_device.device_type = .discreteGpu ∨ p_device.device_type = .integratedGpu) ∧
      p_device.features.geometry_shader = vkTRUE ∧
      (QueueFamilyIndices.get p_device).isOk = true) ∧
    (¬(p_device.device_type = .discreteGpu ∨ p_device.device_type = .integratedGpu) →
      check_physical_device p_device =
        .error (.suitability "Only discrete and integrated GPUs are supported.")) ∧
    ((p_device.device_type = .discreteGpu ∨ p_device.device_type = .integratedGpu) →
      p_device.features.geometry_shader ≠ vkTRUE →
      check_physical_device p_device =
        .error (.suitability "Missing geometry shader support.")) ∧
    ((p_device.device_type = .discreteGpu ∨ p_device.device_type = .integratedGpu) →
      p_device.features.geometry_shader = vkTRUE →
      ∀ e, QueueFamilyIndices.get p_device = .error e →
        check_physical_device p_device = .error e) := by
  by_cases h1 : p_device.device_type = .discreteGpu ∨ p_device.device_type = .integratedGpu
  · have h1' : ¬(p_device.device_type ≠ PhysicalDeviceType.discreteGpu ∧
        p_device.device_type ≠ PhysicalDeviceType.integratedGpu) := by tauto
    by_cases h2 : p_device.features.geometry_shader = vkTRUE
    · cases hget : QueueFamilyIndices.get p_device with
      | error e =>
        have hcheck : check_physical_device p_device = .error e := by
          unfold check_physical_device
          rw [if_neg h1', if_neg (not_not.mpr h2), hget]
        refine ⟨?_, ?_, ?_, ?_⟩
        · rw [hcheck]
          constructor
          · intro h; exact absurd h (by simp)
          · rintro ⟨-, -, hok⟩
            simp [Except.isOk, Except.toBool] at hok
        · intro hn; exact absurd h1 hn
        · intro ht hn; exact absurd h2 hn
        · intro ht hgs e' he'
          cases he'
          exact hcheck
      | ok idx =>
        have hcheck : check_physical_device p_device = .ok () := by
          unfold check_physical_device
          rw [if_neg h1', if_neg (not_not.mpr h2), hget]
        refine ⟨?_, ?_, ?_, ?_⟩
        · rw [hcheck]
          constructor
          · intro hh; exact ⟨h1, h2, rfl⟩
          · intro hh; rfl
        · intro hn; exact absurd h1 hn
        · intro ht hn; exact absurd h2 hn
        · intro ht hgs e' he'
          cases he'
    · have hcheck : check_physical_device p_device =
          .error (.suitability "Missing geometry shader support.") := by
        unfold check_physical_device
        rw [if_neg h1', if_pos h2]
      refine ⟨?_, ?_, ?_, ?_⟩
      · rw [hcheck]
        constructor
        · intro h; exact absurd h (by simp)
        · rintro ⟨-, hgs, -⟩; exact absurd hgs h2
      · intro hn; exact absurd h1 hn
      · intro ht hn; exact hcheck
      · intro ht hgs; exact absurd hgs h2
  · have h1' : p_device.device_type ≠ PhysicalDeviceType.discreteGpu ∧
        p_device.device_type ≠ PhysicalDeviceType.integratedGpu := by tauto
    have hcheck : check_physical_device p_device =
        .error (.suitability "Only discrete and integrated GPUs are supported.") := by
      unfold check_physical_device
      rw [if_pos h1']
    refine ⟨?_, ?_, ?_, ?_⟩
    · rw [hcheck]
      constructor
      · intro h; exact absurd h (by simp)
      · rintro ⟨ht, -⟩; exact absurd ht h1
    · intro hn; exact hcheck
    · intro ht hn; exact absurd ht h1
    · intro ht hgs e' he'; exact absurd ht h1

theorem pickLoop_error_frame (devices : List PhysicalDevice) (a : AppData) (e : VkError)
    (h : (pickLoop devices a).2 = .error e) : (pickLoop devices a).1 = a := by
  induction devices with
  | nil => rfl
  | cons d rest ih =>
    cases hc : check_physical_device d with
    | error e' =>
      have hred : pickLoop (d :: rest) a = pickLoop rest a := by simp [pickLoop, hc]
      rw [hred] at h ⊢
      exact ih h
    | ok u =>
      cases u
      have hred : pickLoop (d :: rest) a = ({ a with physical_device := d }, .ok ()) := by
        simp [pickLoop, hc]
      rw [hred] at h
      simp at h

/-- C10: when pick_physical_device returns an error, because enumeration
failed or because no candidate passed, the AppData it was given is returned
unchanged; the physical_device field is written only when a candidate
passes. -/
theorem physical_device_selector_error_frame
    (enumeration : Except VkError (List PhysicalDevice)) (a : AppData) (e : VkError)
    (h : (pick_physical_device enumeration a).2 = .error e) :
    (pick_physical_device enumeration a).1 = a := by
  cases enumeration with
  | error e' => rfl
  | ok devices => exact pickLoop_error_frame devices a e h

/-- C10 witness: the selector run on an empty enumeration errors and hands the
default AppData back unchanged. -/
theorem physical_device_selector_error_frame_wit :
    ((pick_physical_device (.ok []) (default : AppData)).2
        = .error (.anyhow "Failed to find suitable physical device.")) ∧
    (pick_physical_device (.ok []) (default : AppData)).1 = default :=
  ⟨rfl, physical_device_selector_error_frame (.ok []) default
    (.anyhow "Failed to find suitable physical device.") rfl⟩

/-- C7: in every teardown the messenger destroy call and the device destroy
call are issued strictly before the instance destroy call, whichever optional
components exist. -/
theorem lifecycle_destroy_order
    (validation_enabled : Bool) (a : AppData) (i j : Nat) (c : ApiCall)
    (hi : (VulkanApp.destroy validation_enabled a).get? i = some c)
    (hc : c = ApiCall.destroyDebugUtilsMessenger a.messenger ∨ c = ApiCall.destroyDevice)
    (hj : (VulkanApp.destroy validation_enabled a).get? j = some ApiCall.destroyInstance) :
    i < j := by
  cases validation_enabled with
  | false =>
    have hl : VulkanApp.destroy false a = [ApiCall.destroyDevice, ApiCall.destroyInstance] := rfl
    rw [hl] at hi hj
    rcases j with - | (- | j)
    · simp at hj
    · rcases i with - | (- | i)
      · omega
      · rcases hc with hc | hc <;> subst hc <;> simp at hi
      · simp at hi
    · simp at hj
  | true =>
    have hl : VulkanApp.destroy true a = [ApiCall.destroyDebugUtilsMessenger a.messenger,
        ApiCall.destroyDevice, ApiCall.destroyInstance] := rfl
    rw [hl] at hi hj
    rcases j with - | (- | (- | j))
    · simp at hj
    · simp at hj
    · rcases i with - | (- | (- | i))
      · omega
      · omega
      · rcases hc with hc | hc <;> subst hc <;> simp at hi
      · simp at hi
    · simp at hj

/-- C7 witness: with diagnostics on, the messenger destroy call at index 0
precedes the instance destroy call at index 2. -/
theorem lifecycle_destroy_order_wit :
    ((VulkanApp.destroy true (default : AppData)).get? 0
        = some (ApiCall.destroyDebugUtilsMessenger (default : AppData).messenger)) ∧
    ((VulkanApp.destroy true (default : AppData)).get? 2 = some ApiCall.destroyInstance) ∧
    0 < 2 :=
  ⟨rfl, rfl, lifecycle_destroy_order true default 0 2
    (ApiCall.destroyDebugUtilsMessenger (default : AppData).messenger) rfl (Or.inl rfl) rfl⟩

/-- C5: with diagnostics enabled and the validation layer missing from the
available layers of the host, create_instance returns the capability error and
issues no instance-creation call, so no instance handle is produced. -/
theorem instance_factory_missing_layer_fails_early
    (target_macos native_ok : Bool) (entry_version : Version)
    (available_layers window_extensions : List String) (a : AppData)
    (h : VALIDATION_LAYER ∉ available_layers) :
    (create_instance true target_macos native_ok entry_version available_layers
        window_extensions a).result
      = .error (.anyhow "Validation layer requested but not supported!") ∧
    (create_instance true target_macos native_ok entry_version available_layers
        window_extensions a).calls
      = [ApiCall.enumerateInstanceLayerProperties] := by
  have hcont : available_layers.contains VALIDATION_LAYER = false := by
    rw [← Bool.not_eq_true]
    intro hx
    exact h (List.elem_iff.mp hx)
  unfold create_instance
  rw [hcont]
  exact ⟨rfl, rfl⟩

/-- C5 witness: a host exposing no layers at all makes diagnostics-enabled
instance creation fail before the creation call. -/
theorem instance_factory_missing_layer_fails_early_wit :
    (VALIDATION_LAYER ∉ ([] : List String)) ∧
    ((create_instance true false true ⟨1, 0, 0⟩ [] [] default).result
        = .error (.anyhow "Validation layer requested but not supported!") ∧
      (create_instance true false true ⟨1, 0, 0⟩ [] [] default).calls
        = [ApiCall.enumerateInstanceLayerProperties]) :=
  ⟨List.not_mem_nil VALIDATION_LAYER,
    instance_factory_missing_layer_fails_early false true ⟨1, 0, 0⟩ [] [] default
      (List.not_mem_nil VALIDATION_LAYER)⟩

/-- C6: with diagnostics enabled, create_instance leaves AppData untouched and
never issues a messenger-creation call, so the messenger handle stays at its
default null value, yet teardown still issues a messenger destroy call on that
very handle. -/
theorem debug_messenger_never_created
    (target_macos native_ok : Bool) (entry_version : Version)
    (available_layers window_extensions : List String) (a : AppData) :
    (create_instance true target_macos native_ok entry_version available_layers
        window_extensions a).dataAfter = a ∧
    ApiCall.createDebugUtilsMessenger ∉
      (create_instance true target_macos native_ok entry_version available_layers
        window_extensions a).calls ∧
    VulkanApp.destroy true a =
      [ApiCall.destroyDebugUtilsMessenger a.messenger, ApiCall.destroyDevice,
        ApiCall.destroyInstance] := by
  refine ⟨?_, ?_, rfl⟩
  · unfold create_instance
    split <;> rfl
  · unfold create_instance
    split <;> simp

/-- C8: with diagnostics disabled, the issued instance-creation request chains
no messenger descriptor, and neither the validation layer name nor the
debug-utils extension name appears in its enabled layer or extension lists,
provided the windowing system did not itself request those names; AppData is
left untouched, so no messenger exists. -/
theorem instance_factory_silent_without_diagnostics
    (target_macos native_ok : Bool) (entry_version : Version)
    (available_layers window_extensions : List String) (a : AppData)
    (req : InstanceCreateRequest)
    (h1 : VALIDATION_LAYER ∉ window_extensions)
    (h2 : EXT_DEBUG_UTILS_EXTENSION ∉ window_extensions)
    (hreq : ApiCall.createInstanceCall req ∈
      (create_instance false target_macos native_ok entry_version available_layers
        window_extensions a).calls) :
    req.debug_messenger_chained = false ∧
    VALIDATION_LAYER ∉ req.enabled_layer_names ∧
    EXT_DEBUG_UTILS_EXTENSION ∉ req.enabled_layer_names ∧
    VALIDATION_LAYER ∉ req.enabled_extension_names ∧
    EXT_DEBUG_UTILS_EXTENSION ∉ req.enabled_extension_names ∧
    (create_instance false target_macos native_ok entry_version available_layers
        window_extensions a).dataAfter = a := by
  simp only [create_instance, Bool.false_and, Bool.false_eq_true, if_false] at hreq ⊢
  simp only [List.mem_cons, List.not_mem_nil, or_false] at hreq
  rcases hreq with hreq | hreq
  · cases hreq
  · injection hreq with hr
    subst hr
    refine ⟨rfl, by simp, by simp, ?_, ?_, trivial⟩
    · by_cases hm : (target_macos && Version.geq entry_version PORTABILITY_MACOS_VERSION) = true
      · simp only [hm, if_pos]
        simp only [List.mem_append, not_or]
        refine ⟨h1, ?_⟩
        simp [VALIDATION_LAYER, KHR_GET_PHYSICAL_DEVICE_PROPERTIES2_EXTENSION,
          KHR_PORTABILITY_ENUMERATION_EXTENSION]
      · simp only [Bool.not_eq_true] at hm
        simp [hm, h1]
    · by_cases hm : (target_macos && Version.geq entry_version PORTABILITY_MACOS_VERSION) = true
      · simp only [hm, if_pos]
        simp only [List.mem_append, not_or]
        refine ⟨h2, ?_⟩
        simp [EXT_DEBUG_UTILS_EXTENSION, KHR_GET_PHYSICAL_DEVICE_PROPERTIES2_EXTENSION,
          KHR_PORTABILITY_ENUMERATION_EXTENSION]
      · simp only [Bool.not_eq_true] at hm
        simp [hm, h2]

/-- C8 witness: a release build over a host asking only for the surface
extension issues a request with no diagnostics names and no chained
messenger descriptor. -/
theorem instance_factory_silent_without_diagnostics_wit :
    ((VALIDATION_LAYER ∉ ["VK_KHR_surface"]) ∧
      (EXT_DEBUG_UTILS_EXTENSION ∉ ["VK_KHR_surface"]) ∧
      ApiCall.createInstanceCall witInstReq ∈
        (create_instance false false true ⟨1, 0, 0⟩ [] ["VK_KHR_surface"] default).calls) ∧
    (witInstReq.debug_messenger_chained = false ∧
      VALIDATION_LAYER ∉ witInstReq.enabled_layer_names ∧
      EXT_DEBUG_UTILS_EXTENSION ∉ witInstReq.enabled_layer_names ∧
      VALIDATION_LAYER ∉ witInstReq.enabled_extension_names ∧
      EXT_DEBUG_UTILS_EXTENSION ∉ witInstReq.enabled_extension_names ∧
      (create_instance false false true ⟨1, 0, 0⟩ [] ["VK_KHR_surface"] default).dataAfter
        = default) :=
  ⟨⟨by simp [VALIDATION_LAYER], by simp [EXT_DEBUG_UTILS_EXTENSION],
      by simp [create_instance, witInstReq]⟩,
    instance_factory_silent_without_diagnostics false true ⟨1, 0, 0⟩ [] ["VK_KHR_surface"]
      default witInstReq (by simp [VALIDATION_LAYER]) (by simp [EXT_DEBUG_UTILS_EXTENSION])
      (by simp [create_instance, witInstReq])⟩

/-- C9: when the queue family locator succeeds and device creation succeeds,
create_logical_decice issues a request holding exactly one queue-creation
entry for the located family with priority list [1.0] (hence queue count 1),
a default empty feature set, and stores the queue handle retrieved for
(family, 0) into AppData. -/
theorem logical_device_factory_request
    (validation_enabled target_macos : Bool) (entry_version : Version) (a : AppData)
    (indices : QueueFamilyIndices) (req : DeviceCreateRequest)
    (hidx : QueueFamilyIndices.get a.physical_device = .ok indices)
    (hreq : (create_logical_decice validation_enabled target_macos true entry_version a).result
      = .ok req) :
    req.queue_create_infos
      = [{ queue_family_index := indices.graphics, queue_priorities := [1] }] ∧
    req.enabled_features = ⟨0⟩ ∧
    ApiCall.getDeviceQueue indices.graphics 0 ∈
      (create_logical_decice validation_enabled target_macos true entry_version a).calls ∧
    (create_logical_decice validation_enabled target_macos true entry_version a).dataAfter
      = { a with graphics_queue := some (indices.graphics, 0) } := by
  unfold create_logical_decice at hreq ⊢
  rw [hidx] at hreq ⊢
  simp only [if_pos] at hreq ⊢
  injection hreq with hr
  subst hr
  refine ⟨rfl, rfl, by simp, by first | rfl | trivial⟩

/-- C9 witness: a device exposing one graphics family at index 0 yields the
one-entry request and the stored (0, 0) queue handle. -/
theorem logical_device_factory_request_wit :
    ((QueueFamilyIndices.get witDeviceData.physical_device = .ok ⟨0⟩) ∧
      ((create_logical_decice false false true ⟨1, 0, 0⟩ witDeviceData).result
        = .ok witDeviceReq)) ∧
    (witDeviceReq.queue_create_infos
      = [{ queue_family_index := (0 : Nat), queue_priorities := [1] }] ∧
      witDeviceReq.enabled_features = ⟨0⟩ ∧
      ApiCall.getDeviceQueue 0 0 ∈
        (create_logical_decice false false true ⟨1, 0, 0⟩ witDeviceData).calls ∧
      (create_logical_decice false false true ⟨1, 0, 0⟩ witDeviceData).dataAfter
        = { witDeviceData with graphics_queue := some (0, 0) }) :=
  ⟨⟨rfl, rfl⟩,
    logical_device_factory_request false false ⟨1, 0, 0⟩ witDeviceData ⟨0⟩ witDeviceReq rfl rfl⟩

theorem create_instance_dataAfter (v m nok : Bool) (ver : Version)
    (ls ws : List String) (a : AppData) :
    (create_instance v m nok ver ls ws a).dataAfter = a := by
  unfold create_instance
  split <;> rfl

theorem create_instance_calls_shape (v m nok : Bool) (ver : Version)
    (ls ws : List String) (a : AppData) (c : ApiCall)
    (hc : c ∈ (create_instance v m nok ver ls ws a).calls) :
    c = ApiCall.enumerateInstanceLayerProperties ∨ ∃ r, c = ApiCall.createInstanceCall r := by
  unfold create_instance at hc
  split at hc
  · simp at hc
    exact Or.inl hc
  · simp at hc
    rcases hc with hc | hc
    · exact Or.inl hc
    · exact Or.inr ⟨_, hc⟩

/-- C1: VulkanApp::create never invokes the Physical Device Selector: no run
of the bootstrap issues a device enumeration call, and since the logical
device factory is handed the AppData default (null) physical device instead
of a selected one, no run of the bootstrap ever succeeds. -/
theorem bootstrap_skips_device_selector (w : World) :
    ApiCall.enumeratePhysicalDevices ∉ (VulkanApp.create w).calls ∧
    ∀ d, (VulkanApp.create w).result ≠ .ok d := by
  have hdr : create_logical_decice w.validation_enabled w.target_macos w.native_device_ok
      w.entry_version (default : AppData) =
      { dataAfter := default, calls := [],
        result := .error (.suitability "Missing required queue families.") } := rfl
  have hdata := create_instance_dataAfter w.validation_enabled w.target_macos
    w.native_instance_ok w.entry_version w.available_layers w.window_extensions default
  cases hres : (create_instance w.validation_enabled w.target_macos w.native_instance_ok
      w.entry_version w.available_layers w.window_extensions (default : AppData)).result with
  | error e =>
    have hcreate : VulkanApp.create w =
        { calls := (create_instance w.validation_enabled w.target_macos w.native_instance_ok
            w.entry_version w.available_layers w.window_extensions (default : AppData)).calls,
          result := .error e } := by
      simp only [VulkanApp.create, hres]
    rw [hcreate]
    constructor
    · intro hmem
      rcases create_instance_calls_shape _ _ _ _ _ _ _ _ hmem with h | ⟨r, h⟩ <;> simp at h
    · intro d hd
      simp at hd
  | ok r =>
    have hcreate : VulkanApp.create w =
        { calls := (create_instance w.validation_enabled w.target_macos w.native_instance_ok
            w.entry_version w.available_layers w.window_extensions (default : AppData)).calls
            ++ [],
          result := .error (.suitability "Missing required queue families.") } := by
      simp only [VulkanApp.create, hres, hdata, hdr]
    rw [hcreate]
    constructor
    · intro hmem
      rw [List.append_nil] at hmem
      rcases create_instance_calls_shape _ _ _ _ _ _ _ _ hmem with h | ⟨r', h⟩ <;> simp at h
    · intro d hd
      simp at hd

end Vulcan
